import Mathlib

/-!
Shallow embedding of the spotclean error-sanitization library.

Strings are modelled as lists of characters (`Str`).  A compiled JavaScript
global regular expression is modelled by its scanning behaviour: a function
returning the leftmost match of the pattern in a text, as the triple
(text before the match, matched text, text after the match).  Every regular
expression appearing in the sources only produces non-empty matches, so
`String.prototype.replace` with a global pattern is modelled by repeatedly
taking the leftmost match and continuing after it (`jsReplaceAll`), with a
fuel argument that is always sufficient because every step consumes at
least one character.
-/

namespace Spotclean

/-- Strings as lists of characters. -/
abbrev Str := List Char

/-- Shorthand turning a Lean string literal into a `Str`. -/
def S (s : String) : Str := s.data

/-- Behaviour of a compiled global regex: leftmost match of the pattern in
the input, returned as (before, match, after), or `none`. -/
abbrev RegexFind := Str → Option (Str × Str × Str)

/-- One pass of `String.prototype.replace(globalRegex, f)` with the given
fuel; each located match `m` is replaced by `f m` and scanning resumes
after the match, as with a global regex and its `lastIndex`. -/
def jsReplaceAllAux (find : RegexFind) (f : Str → Str) : Nat → Str → Str
  | 0, s => s
  | fuel + 1, s =>
    match find s with
    | none => s
    | some (pre, m, rest) => pre ++ f m ++ jsReplaceAllAux find f fuel rest

/-- Model of `String.prototype.replace` with a global regex and a
replacement function. -/
def jsReplaceAll (find : RegexFind) (f : Str → Str) (s : Str) : Str :=
  jsReplaceAllAux find f (s.length + 1) s

/-- Model of `String.prototype.slice(-n)`.  JavaScript has `-0 === 0`, so
for `n = 0` the call is `slice(0)` and returns the whole string; for
`n > 0` it returns the last `min n length` characters. -/
def sliceNeg (s : Str) (n : Nat) : Str :=
  if n = 0 then s else s.drop (s.length - n)

/-- Model of `String.prototype.toLowerCase` (the library matches ASCII
keywords, on which `Char.toLower` agrees with JavaScript). -/
def jsToLower (s : Str) : Str := s.map Char.toLower

/-- Model of `String.prototype.includes`: contiguous substring test. -/
def jsIncludes (s sub : Str) : Bool := decide (sub <:+: s)

/-- Base-36 digit characters, as produced by `Number.prototype.toString(36)`. -/
def digitChar36 (n : Nat) : Char :=
  if n < 10 then Char.ofNat (48 + n) else Char.ofNat (87 + n)

/-- Model of `Number.prototype.toString(36)` on a natural number. -/
def toBase36 (n : Nat) : Str :=
  if _h : n < 36 then [digitChar36 n]
  else toBase36 (n / 36) ++ [digitChar36 (n % 36)]
termination_by n
decreasing_by exact Nat.div_lt_self (by omega) (by omega)

/-- Model of `String.prototype.padStart(n, c)`. -/
def padStart (s : Str) (n : Nat) (c : Char) : Str :=
  List.replicate (n - s.length) c ++ s

/-- Value of a base-36 digit character (left inverse of `digitChar36` below
36, used only in proofs). -/
def digit36Val (c : Char) : Nat :=
  if c.isDigit then c.toNat - 48 else c.toNat - 87

/-- Numeric value of a base-36 string (used only in proofs). -/
def val36 (s : Str) : Nat := s.foldl (fun acc c => acc * 36 + digit36Val c) 0

/-! ## Secret guard (src/secret-guard.ts) -/

/-- A named secret-detection rule (`SecretPattern` in types.ts); the
compiled regular expression is modelled by its scanning behaviour. -/
structure SecretPattern where
  name : Str
  find : RegexFind

/-- Configuration of the secret redactor (`SecretGuardConfig`). -/
structure SecretGuardConfig where
  enabled : Bool
  customPatterns : List SecretPattern
  redactionText : Str
  preservePartial : Bool
  preserveLength : Nat

/-- The `SecretGuard` class: configuration plus the effective ordered
pattern list (built-ins followed by custom patterns at construction). -/
structure SecretGuard where
  config : SecretGuardConfig
  patterns : List SecretPattern

/-- Method `createRedaction`: replacement text for one matched secret.
Note the use of `slice(-preserveLength)` in the source. -/
def SecretGuard.createRedaction (g : SecretGuard) (m : Str) : Str :=
  if g.config.preservePartial = true ∧ g.config.preserveLength < m.length then
    g.config.redactionText ++ S "..." ++ sliceNeg m g.config.preserveLength
  else
    g.config.redactionText

/-- Method `redact`: no-op when disabled or the input is empty, otherwise
every pattern is applied in order, each match replaced via
`createRedaction`.  Each scan starts from position zero (`lastIndex = 0`
in the source). -/
def SecretGuard.redact (g : SecretGuard) (input : Str) : Str :=
  if g.config.enabled = false ∨ input = [] then input
  else
    g.patterns.foldl
      (fun result p => jsReplaceAll p.find (fun m => g.createRedaction m) result)
      input

/-- Method `containsSecrets`: true when some pattern has a match
(`pattern.test`), false when disabled or the input is empty. -/
def SecretGuard.containsSecrets (g : SecretGuard) (input : Str) : Bool :=
  if g.config.enabled = false ∨ input = [] then false
  else g.patterns.any (fun p => (p.find input).isSome)

/-- Method `addPattern`: appends to the pattern list. -/
def SecretGuard.addPattern (g : SecretGuard) (p : SecretPattern) : SecretGuard :=
  { g with patterns := g.patterns ++ [p] }

/-- Method `removePattern`: filters out patterns whose name equals the
given name and reports whether the list shrank.  Returns the updated
guard together with the boolean result. -/
def SecretGuard.removePattern (g : SecretGuard) (name : Str) : SecretGuard × Bool :=
  let initialLength := g.patterns.length
  let patterns := g.patterns.filter (fun p => p.name ≠ name)
  ({ g with patterns := patterns }, decide (patterns.length < initialLength))

/-! ## Error sanitizer (ErrorSanitizer module) -/

/-- The three environment modes of `ErrorSanitizerConfig.environment`. -/
inductive Environment where
  | production
  | development
  | test
deriving DecidableEq

/-- Configuration of the error sanitizer (`ErrorSanitizerConfig`). -/
structure ErrorSanitizerConfig where
  enabled : Bool
  environment : Environment
  includeCorrelationId : Bool
  maxMessageLength : Nat
  sanitizeStackTraces : Bool

/-- A JavaScript `Error` object as used by the library: name, message and
optional stack. -/
structure JsError where
  name : Str
  message : Str
  stack : Option Str

/-- Opaque caller context (`Record<string, unknown>`). -/
abbrev Context := List (Str × Str)

/-- Full-fidelity internal record (`InternalErrorDetails`); the timestamp
is the millisecond clock value passed to the call. -/
structure InternalErrorDetails where
  correlationId : Str
  originalMessage : Str
  originalStack : Option Str
  context : Option Context
  timestamp : Nat

/-- External record (`ExternalError`). -/
structure ExternalError where
  message : Str
  correlationId : Option Str
  type : Str

/-- Result of `sanitize` (`SanitizedErrorResult`). -/
structure SanitizedErrorResult where
  external : ExternalError
  internal : InternalErrorDetails

/-- Table `GENERIC_MESSAGES`, keyed by error type name. -/
def GENERIC_MESSAGES : List (Str × Str) := [
  (S "TimeoutError", S "The operation timed out. Please try again."),
  (S "ValidationError", S "The provided data is invalid."),
  (S "AuthenticationError", S "Authentication failed."),
  (S "AuthorizationError", S "You do not have permission to perform this action."),
  (S "NotFoundError", S "The requested resource was not found."),
  (S "RateLimitError", S "Too many requests. Please slow down."),
  (S "NetworkError", S "A network error occurred. Please check your connection."),
  (S "DatabaseError", S "A database error occurred. Please try again."),
  (S "ConfigurationError", S "A configuration error occurred.")]

/-- Table `MESSAGE_KEYWORDS`: ordered keyword groups with their generic
messages. -/
def MESSAGE_KEYWORDS : List (List Str × Str) := [
  ([S "timeout", S "timed out", S "deadline exceeded"],
    S "The operation timed out. Please try again."),
  ([S "not found", S "does not exist", S "no such file", S "enoent"],
    S "The requested resource was not found."),
  ([S "permission", S "access denied", S "forbidden", S "eacces", S "eperm"],
    S "You do not have permission to perform this action."),
  ([S "invalid", S "validation", S "malformed"],
    S "The provided data is invalid."),
  ([S "network", S "connection", S "socket", S "econnrefused", S "econnreset"],
    S "A network error occurred. Please check your connection."),
  ([S "authentication", S "unauthorized", S "unauthenticated", S "login"],
    S "Authentication failed."),
  ([S "rate limit", S "too many requests", S "throttle"],
    S "Too many requests. Please slow down."),
  ([S "database", S "query", S "sql", S "db error"],
    S "A database error occurred. Please try again.")]

/-- Default generic message of `getGenericMessage`. -/
def DEFAULT_GENERIC_MESSAGE : Str := S "An unexpected error occurred. Please try again."

/-- Method `getGenericMessage`: (a) exact type-name lookup in
`GENERIC_MESSAGES` (modelled as association-list lookup), else (b) first
keyword group with a keyword contained in the lowercased message, else
(c) the default generic message. -/
def getGenericMessage (error : JsError) : Str :=
  match GENERIC_MESSAGES.lookup error.name with
  | some m => m
  | none =>
    let message := jsToLower error.message
    match MESSAGE_KEYWORDS.find? (fun kw => kw.1.any (fun k => jsIncludes message k)) with
    | some kw => kw.2
    | none => DEFAULT_GENERIC_MESSAGE

/-- The `ErrorSanitizer` class: configuration, secret guard and the
per-instance correlation counter. -/
structure ErrorSanitizer where
  config : ErrorSanitizerConfig
  secretGuard : SecretGuard
  correlationCounter : Nat

/-- Method `generateCorrelationId`: base-36 timestamp, pre-incremented
counter padded to four characters, and the random suffix, joined with
hyphens after the `err` tag.  `nowMs` is `Date.now()` and `rand` the
fragment of `Math.random().toString(36)`; returns the id and the new
counter. -/
def generateCorrelationId (nowMs : Nat) (counter : Nat) (rand : Str) : Str × Nat :=
  let counter' := counter + 1
  let timestamp := toBase36 nowMs
  let counterStr := padStart (toBase36 counter') 4 '0'
  (S "err-" ++ timestamp ++ S "-" ++ counterStr ++ S "-" ++ rand, counter')

/-- Method `sanitize`: builds the internal record unconditionally, picks
the external message (redacted original when disabled or in development,
generic message otherwise), truncates it, and attaches the correlation id
to the external record only when configured. -/
def ErrorSanitizer.sanitize (z : ErrorSanitizer) (error : JsError)
    (context : Option Context) (nowMs : Nat) (rand : Str) :
    SanitizedErrorResult × ErrorSanitizer :=
  let (correlationId, counter') := generateCorrelationId nowMs z.correlationCounter rand
  let internal : InternalErrorDetails :=
    { correlationId := correlationId
      originalMessage := error.message
      originalStack := error.stack
      context := context
      timestamp := nowMs }
  let externalMessage :=
    if z.config.enabled = false ∨ z.config.environment = Environment.development then
      z.secretGuard.redact error.message
    else
      getGenericMessage error
  let externalMessage :=
    if z.config.maxMessageLength < externalMessage.length then
      externalMessage.take z.config.maxMessageLength ++ S "..."
    else externalMessage
  let external : ExternalError :=
    { message := externalMessage
      correlationId := if z.config.includeCorrelationId then some correlationId else none
      type := error.name }
  (⟨external, internal⟩, { z with correlationCounter := counter' })

/-- Observer naming the pre-truncation external message computed inside
`sanitize` (the branch on `enabled` and `environment`). -/
def preTruncationMessage (z : ErrorSanitizer) (error : JsError) : Str :=
  if z.config.enabled = false ∨ z.config.environment = Environment.development then
    z.secretGuard.redact error.message
  else
    getGenericMessage error

/-- Observer naming the truncation step of `sanitize` and
`sanitizeMessage`: cut to `maxLen` characters and append the ellipsis
marker when the input is longer than `maxLen`. -/
def truncateMessage (maxLen : Nat) (s : Str) : Str :=
  if maxLen < s.length then s.take maxLen ++ S "..." else s

/-- A sanitized `Error` object as produced by `createSafeError`:
`new Error(message)` carries a fresh stack, then name, correlation id and
(possibly) stack removal are applied. -/
structure SafeError where
  name : Str
  message : Str
  correlationId : Option Str
  stack : Option Str

/-- Method `createSafeError`: sanitizes, then builds a new error from the
external message, preserves the type name, attaches the correlation id,
and removes the stack only when both `sanitizeStackTraces` and production
hold.  `freshStack` is the stack `new Error` captures. -/
def ErrorSanitizer.createSafeError (z : ErrorSanitizer) (error : JsError)
    (context : Option Context) (nowMs : Nat) (rand : Str) (freshStack : Str) :
    SafeError × ErrorSanitizer :=
  let (r, z') := z.sanitize error context nowMs rand
  let safeError : SafeError :=
    { name := r.external.type
      message := r.external.message
      correlationId := some r.internal.correlationId
      stack :=
        if z.config.sanitizeStackTraces = true ∧ z.config.environment = Environment.production
        then none else some freshStack }
  (safeError, z')

/-- Method `sanitizeMessage`: identity when disabled, otherwise secret
redaction followed by truncation. -/
def ErrorSanitizer.sanitizeMessage (z : ErrorSanitizer) (message : Str) : Str :=
  if z.config.enabled = false then message
  else truncateMessage z.config.maxMessageLength (z.secretGuard.redact message)

/-- An arbitrary JavaScript value reaching `sanitizeUnknownError`: an
`Error` instance, a string, or any other value. -/
inductive JsUnknown where
  | errObj (e : JsError)
  | strVal (s : Str)
  | otherVal

/-- Function `sanitizeUnknownError`: `Error` inputs go straight to
`createSafeError`; any other value is wrapped into a synthetic error
(string inputs keep their text as the message, everything else gets the
fixed message) whose name is set to `UnknownError`. -/
def sanitizeUnknownError (z : ErrorSanitizer) (error : JsUnknown)
    (context : Option Context) (nowMs : Nat) (rand : Str) (freshStack : Str) :
    SafeError × ErrorSanitizer :=
  match error with
  | .errObj e => z.createSafeError e context nowMs rand freshStack
  | _ =>
    let errorMessage :=
      match error with
      | .strVal s => s
      | _ => S "An unknown error occurred"
    let wrappedError : JsError :=
      { name := S "UnknownError", message := errorMessage, stack := some freshStack }
    z.createSafeError wrappedError context nowMs rand freshStack

/-! ## Path sanitizer (src/path-sanitizer.ts) -/

/-- Character class `[a-zA-Z0-9_-]`. -/
def wordDashClass (c : Char) : Bool := c.isAlpha || c.isDigit || c = '_' || c = '-'

/-- Character class `[a-zA-Z0-9_.-]`. -/
def wordDashDotClass (c : Char) : Bool := wordDashClass c || c = '.'

/-- ASCII whitespace, the fragment of the JavaScript `\s` class relevant
to the texts the library scans. -/
def jsWhitespace (c : Char) : Bool :=
  c = ' ' || c = '\t' || c = '\n' || c = '\r' || c = '\x0b' || c = '\x0c'

/-- Character class `[^\s:]`. -/
def notSpaceColonClass (c : Char) : Bool := !(jsWhitespace c || c = ':')

/-- Case-sensitive character comparison. -/
def charEq (a b : Char) : Bool := a = b

/-- Case-insensitive character comparison (the `i` regex flag). -/
def charEqCI (a b : Char) : Bool := a.toLower = b.toLower

/-- Strip a literal from the front of a text under the given character
comparison, returning the consumed original characters and the rest. -/
def stripLitAux (eqc : Char → Char → Bool) : Str → Str → Option (Str × Str)
  | [], s => some ([], s)
  | _ :: _, [] => none
  | l :: ls, c :: cs =>
    if eqc l c then
      match stripLitAux eqc ls cs with
      | none => none
      | some (consumed, rest) => some (c :: consumed, rest)
    else none

/-- Match, at the start of the text, a literal followed by one or more
characters of a class (greedy), as in the system path regexes. -/
def matchLitClassAt (eqc : Char → Char → Bool) (lit : Str) (cls : Char → Bool)
    (s : Str) : Option (Str × Str) :=
  match stripLitAux eqc lit s with
  | none => none
  | some (consumed, rest) =>
    let run := rest.takeWhile cls
    if run = [] then none
    else some (consumed ++ run, rest.dropWhile cls)

/-- Turn an anchored matcher into a leftmost-match scanner. -/
def scanFind (matchAt : Str → Option (Str × Str)) : Str → Option (Str × Str × Str)
  | [] =>
    match matchAt [] with
    | some (m, rest) => some ([], m, rest)
    | none => none
  | c :: s =>
    match matchAt (c :: s) with
    | some (m, rest) => some ([], m, rest)
    | none =>
      match scanFind matchAt s with
      | some (pre, m, rest) => some (c :: pre, m, rest)
      | none => none

/-- Scanner of the regex `literal ++ class+` with the given comparison. -/
def litClassFind (eqc : Char → Char → Bool) (lit : String) (cls : Char → Bool) : RegexFind :=
  scanFind (matchLitClassAt eqc (S lit) cls)

/-- Scanner of a regex built by escaping a literal string
(`basePath.replace(/[.*+?^${}()|[\]\\]/g, ...)` followed by
`new RegExp(escaped, 'g')` matches exactly that literal). -/
def litFind (lit : Str) : RegexFind :=
  scanFind (fun s =>
    match stripLitAux charEq lit s with
    | none => none
    | some (consumed, rest) => if consumed = [] then none else some (consumed, rest))

/-- A path pattern: compiled regex plus a replacement string (none of the
replacement strings in the sources use `$` substitution, so the
replacement is spliced literally). -/
structure PathPattern where
  find : RegexFind
  replacement : Str

/-- The fixed table `SYSTEM_PATH_PATTERNS`, in source order. -/
def SYSTEM_PATH_PATTERNS : List PathPattern := [
  ⟨litClassFind charEq "/home/" wordDashClass, S "/home/[USER]"⟩,
  ⟨litClassFind charEq "/Users/" wordDashClass, S "/Users/[USER]"⟩,
  ⟨litClassFind charEqCI "C:\\Users\\" wordDashClass, S "C:\\Users\\[USER]"⟩,
  ⟨litClassFind charEq "/tmp/" wordDashDotClass, S "/tmp/[TEMP]"⟩,
  ⟨litClassFind charEq "/var/tmp/" wordDashDotClass, S "/var/tmp/[TEMP]"⟩,
  ⟨litClassFind charEq "/node_modules/" notSpaceColonClass, S "/node_modules/[MODULE]"⟩,
  ⟨litClassFind charEq "/proc/" Char.isDigit, S "/proc/[PID]"⟩]

/-- Configuration of the path sanitizer (`PathSanitizerConfig`). -/
structure PathSanitizerConfig where
  enabled : Bool
  basePaths : List Str
  basePathReplacement : Str
  redactSystemPaths : Bool
  customPatterns : List PathPattern

/-- The `PathSanitizer` class. -/
structure PathSanitizer where
  config : PathSanitizerConfig

/-- Method `redact`, phase 1: every non-empty configured base path,
escaped into a literal pattern, replaced globally by the base-path
replacement. -/
def applyBasePaths (p : PathSanitizer) (s : Str) : Str :=
  p.config.basePaths.foldl
    (fun result basePath =>
      if basePath ≠ [] then
        jsReplaceAll (litFind basePath) (fun _ => p.config.basePathReplacement) result
      else result)
    s

/-- Method `redact`, phase 2: the custom patterns in order. -/
def applyCustomPatterns (p : PathSanitizer) (s : Str) : Str :=
  p.config.customPatterns.foldl
    (fun result pat => jsReplaceAll pat.find (fun _ => pat.replacement) result)
    s

/-- Method `redact`, phase 3: the system pattern table, when enabled. -/
def applySystemPatterns (p : PathSanitizer) (s : Str) : Str :=
  if p.config.redactSystemPaths = true then
    SYSTEM_PATH_PATTERNS.foldl
      (fun result pat => jsReplaceAll pat.find (fun _ => pat.replacement) result)
      s
  else s

/-- Method `redact`: no-op when disabled or empty, otherwise base paths,
then custom patterns, then system patterns, each phase applied to the
result of the previous one. -/
def PathSanitizer.redact (p : PathSanitizer) (input : Str) : Str :=
  if p.config.enabled = false ∨ input = [] then input
  else
    let result := p.config.basePaths.foldl
      (fun result basePath =>
        if basePath ≠ [] then
          jsReplaceAll (litFind basePath) (fun _ => p.config.basePathReplacement) result
        else result)
      input
    let result := p.config.customPatterns.foldl
      (fun result pat => jsReplaceAll pat.find (fun _ => pat.replacement) result)
      result
    let result :=
      if p.config.redactSystemPaths = true then
        SYSTEM_PATH_PATTERNS.foldl
          (fun result pat => jsReplaceAll pat.find (fun _ => pat.replacement) result)
          result
      else result
    result

/-- Constructor base-path auto-detection (`detectBasePaths`): the home
directory when resolvable, then the working directory when resolvable and
not the filesystem root. -/
def detectBasePaths (homeDir : Option Str) (cwd : Option Str) : List Str :=
  (match homeDir with
   | some h => [h]
   | none => []) ++
  (match cwd with
   | some c => if c ≠ [] ∧ c ≠ S "/" then [c] else []
   | none => [])

/-- The `PathSanitizer` constructor with an empty configuration: default
fields plus auto-detected base paths. -/
def PathSanitizer.mkDefault (homeDir : Option Str) (cwd : Option Str) : PathSanitizer :=
  { config :=
    { enabled := true
      basePaths := detectBasePaths homeDir cwd
      basePathReplacement := S "[PATH]"
      redactSystemPaths := true
      customPatterns := [] } }

/-! ## Sequential runs of `sanitize` -/

/-- Run `n` sequential `sanitize` calls on one instance, threading the
per-instance state; call `i` receives error `errs i`, context `ctxs i`,
clock value `nows i` and random fragment `rands i`.  Returns the final
instance and the correlation ids of the internal records, in call
order. -/
def sanitizeRun (z : ErrorSanitizer) (errs : Nat → JsError) (ctxs : Nat → Option Context)
    (nows : Nat → Nat) (rands : Nat → Str) : Nat → ErrorSanitizer × List Str
  | 0 => (z, [])
  | n + 1 =>
    let (z', ids) := sanitizeRun z errs ctxs nows rands n
    let (r, z'') := z'.sanitize (errs n) (ctxs n) (nows n) (rands n)
    (z'', ids ++ [r.internal.correlationId])

/-! ## Concrete fixtures used by witnesses and counterexamples -/

/-- The fixed generic strings the classifier can produce: the type-name
table values, the keyword-group messages and the default message. -/
def fixedGenericMessages : List Str :=
  GENERIC_MESSAGES.map Prod.snd ++ MESSAGE_KEYWORDS.map Prod.snd ++ [DEFAULT_GENERIC_MESSAGE]

/-- A secret guard whose configuration has `enabled = false`. -/
def disabledGuard : SecretGuard :=
  { config :=
    { enabled := false
      customPatterns := []
      redactionText := S "[REDACTED]"
      preservePartial := false
      preserveLength := 4 }
    patterns := [] }

/-- A secret guard with partial preservation and the default preserve
length of four characters. -/
def guardPartial4 : SecretGuard :=
  { config :=
    { enabled := true
      customPatterns := []
      redactionText := S "[REDACTED]"
      preservePartial := true
      preserveLength := 4 }
    patterns := [] }

/-- A secret guard with partial preservation and preserve length zero. -/
def guardPartial0 : SecretGuard :=
  { config :=
    { enabled := true
      customPatterns := []
      redactionText := S "[REDACTED]"
      preservePartial := true
      preserveLength := 0 }
    patterns := [] }

/-- A detection rule that never matches, used to exercise the registry
operations on names. -/
def inertPattern (name : Str) : SecretPattern :=
  { name := name, find := fun _ => none }

/-- A guard holding two patterns that share the name `dup`. -/
def guardDupNames : SecretGuard :=
  { config := disabledGuard.config
    patterns := [inertPattern (S "dup"), inertPattern (S "dup")] }

/-- An error sanitizer in production mode with the default message
length. -/
def prodSanitizer : ErrorSanitizer :=
  { config :=
    { enabled := true
      environment := Environment.production
      includeCorrelationId := true
      maxMessageLength := 500
      sanitizeStackTraces := true }
    secretGuard := disabledGuard
    correlationCounter := 0 }

/-- An error sanitizer with `environment = 'test'` and sanitization
enabled. -/
def testModeSanitizer : ErrorSanitizer :=
  { prodSanitizer with
    config := { prodSanitizer.config with environment := Environment.test } }

/-- An error sanitizer in development mode with the default message
length. -/
def devSanitizer : ErrorSanitizer :=
  { prodSanitizer with
    config := { prodSanitizer.config with environment := Environment.development } }

/-- A development-mode sanitizer with `maxMessageLength = 50`. -/
def devSanitizer50 : ErrorSanitizer :=
  { devSanitizer with
    config := { devSanitizer.config with maxMessageLength := 50 } }

/-- Error carrying the timeout scenario message. -/
def errTimeout : JsError :=
  { name := S "Error", message := S "Request timed out after 5000ms", stack := none }

/-- Error whose message is `hello`. -/
def errHello : JsError :=
  { name := S "Error", message := S "hello", stack := none }

/-- Error whose message is the three-character ellipsis marker itself. -/
def errDots : JsError :=
  { name := S "Error", message := S "...", stack := none }

/-- Error whose message is one hundred repeated characters. -/
def errLong : JsError :=
  { name := S "Error", message := List.replicate 100 'a', stack := none }

/-- Path sanitizer built with default configuration, auto-detecting the
base paths `/root` and `/srv/app`. -/
def pathDefault : PathSanitizer :=
  PathSanitizer.mkDefault (some (S "/root")) (some (S "/srv/app"))

/-! ## Helper lemmas -/

/-- The correlation-id shape of a sanitize result, by computation. -/
theorem sanitize_internal_id (z : ErrorSanitizer) (e : JsError) (ctx : Option Context)
    (now : Nat) (rand : Str) :
    (z.sanitize e ctx now rand).1.internal.correlationId =
      (generateCorrelationId now z.correlationCounter rand).1 := rfl

/-- The counter after a sanitize call, by computation. -/
theorem sanitize_counter_succ (z : ErrorSanitizer) (e : JsError) (ctx : Option Context)
    (now : Nat) (rand : Str) :
    (z.sanitize e ctx now rand).2.correlationCounter = z.correlationCounter + 1 := rfl

/-- The external message of a sanitize result is the truncation of the
pre-truncation message, by computation. -/
theorem sanitize_message_shape (z : ErrorSanitizer) (e : JsError) (ctx : Option Context)
    (now : Nat) (rand : Str) :
    (z.sanitize e ctx now rand).1.external.message =
      truncateMessage z.config.maxMessageLength (preTruncationMessage z e) := rfl

/-- A successful association-list lookup returns one of the stored
values. -/
theorem lookup_mem {k v : Str} :
    ∀ {l : List (Str × Str)}, l.lookup k = some v → v ∈ l.map Prod.snd := by
  intro l
  induction l with
  | nil => intro h; simp [List.lookup] at h
  | cons a l ih =>
    obtain ⟨k', v'⟩ := a
    intro h
    simp only [List.lookup] at h
    cases hkk : k == k' with
    | true =>
      rw [hkk] at h
      have h' : some v' = some v := h
      injection h' with h'
      subst h'
      exact List.mem_cons_self _ _
    | false =>
      rw [hkk] at h
      have h' : List.lookup k l = some v := h
      exact List.mem_cons_of_mem _ (ih h')

/-- The classifier only ever produces one of the fixed generic strings. -/
theorem getGenericMessage_mem (e : JsError) : getGenericMessage e ∈ fixedGenericMessages := by
  unfold getGenericMessage
  cases hl : GENERIC_MESSAGES.lookup e.name with
  | some m =>
    exact List.mem_append.mpr (Or.inl (List.mem_append.mpr (Or.inl (lookup_mem hl))))
  | none =>
    show (match MESSAGE_KEYWORDS.find?
        (fun kw => kw.1.any (fun k => jsIncludes (jsToLower e.message) k)) with
      | some kw => kw.2
      | none => DEFAULT_GENERIC_MESSAGE) ∈ fixedGenericMessages
    cases hf : MESSAGE_KEYWORDS.find?
        (fun kw => kw.1.any (fun k => jsIncludes (jsToLower e.message) k)) with
    | some kw =>
      exact List.mem_append.mpr
        (Or.inl (List.mem_append.mpr (Or.inr (List.mem_map_of_mem Prod.snd
          (List.mem_of_find?_eq_some hf)))))
    | none =>
      exact List.mem_append.mpr (Or.inr (List.mem_singleton.mpr rfl))

/-- Each fixed generic string has at most 55 characters. -/
theorem genericMessages_le55 : ∀ m ∈ fixedGenericMessages, m.length ≤ 55 := by decide

/-- Below 36, `digit36Val` inverts `digitChar36`. -/
theorem digit36Val_digitChar36 : ∀ k, k < 36 → digit36Val (digitChar36 k) = k := by decide

/-- Appending a digit multiplies the value by the base and adds the
digit. -/
theorem val36_append_digit (s : Str) (c : Char) :
    val36 (s ++ [c]) = val36 s * 36 + digit36Val c := by
  simp [val36, List.foldl_append]

/-- The base-36 rendering evaluates back to the number. -/
theorem val36_toBase36 : ∀ n, val36 (toBase36 n) = n := by
  intro n
  induction n using Nat.strong_induction_on with
  | _ n ih =>
    rw [toBase36]
    split
    · next h => simp [val36, digit36Val_digitChar36 n h]
    · next h =>
      rw [val36_append_digit, ih (n / 36) (Nat.div_lt_self (by omega) (by omega)),
        digit36Val_digitChar36 _ (Nat.mod_lt _ (by omega))]
      omega

/-- Leading zero characters contribute nothing to the base-36 value. -/
theorem val36_zero_replicate (k : Nat) :
    List.foldl (fun acc c => acc * 36 + digit36Val c) 0 (List.replicate k '0') = 0 := by
  induction k with
  | zero => rfl
  | succ k ih => simpa [List.replicate, digit36Val] using ih

/-- Zero-padding preserves the base-36 value. -/
theorem val36_padStart (s : Str) (n : Nat) : val36 (padStart s n '0') = val36 s := by
  unfold padStart val36
  rw [List.foldl_append, val36_zero_replicate]

/-- Base-36 digit characters are never hyphens. -/
theorem digitChar36_ne_hyphen : ∀ k, k < 36 → digitChar36 k ≠ '-' := by decide

/-- The base-36 rendering of a number never contains a hyphen. -/
theorem not_mem_toBase36 : ∀ n, '-' ∉ toBase36 n := by
  intro n
  induction n using Nat.strong_induction_on with
  | _ n ih =>
    rw [toBase36]
    split
    · next h =>
      simp only [List.mem_singleton]
      exact fun hc => digitChar36_ne_hyphen n h hc.symm
    · next h =>
      intro hc
      rcases List.mem_append.mp hc with hc | hc
      · exact ih (n / 36) (Nat.div_lt_self (by omega) (by omega)) hc
      · rw [List.mem_singleton] at hc
        exact digitChar36_ne_hyphen _ (Nat.mod_lt _ (by omega)) hc.symm

/-- Zero-padding introduces no hyphen. -/
theorem not_mem_padStart {s : Str} (h : '-' ∉ s) (n : Nat) : '-' ∉ padStart s n '0' := by
  unfold padStart
  intro hm
  rcases List.mem_append.mp hm with hm | hm
  · exact absurd (List.eq_of_mem_replicate hm) (by decide)
  · exact h hm

/-- Intercalating four segments with a separator character. -/
theorem intercalate_four (x : Char) (a b c d : Str) :
    [x].intercalate [a, b, c, d] = a ++ x :: (b ++ x :: (c ++ x :: d)) := by
  simp [List.intercalate]

/-- A correlation id is the hyphen-intercalation of its four segments. -/
theorem correlationId_eq (now c : Nat) (r : Str) :
    (generateCorrelationId now c r).1 =
      ['-'].intercalate [S "err", toBase36 now, padStart (toBase36 (c + 1)) 4 '0', r] := by
  rw [intercalate_four]
  show S "err-" ++ toBase36 now ++ S "-" ++ padStart (toBase36 (c + 1)) 4 '0' ++ S "-" ++ r = _
  have herr : S "err-" = ['e', 'r', 'r', '-'] := rfl
  have hdash : S "-" = ['-'] := rfl
  have herr3 : S "err" = ['e', 'r', 'r'] := rfl
  rw [herr, hdash, herr3]
  simp [List.append_assoc]

/-- Splitting a correlation id on hyphens recovers its four segments when
the random fragment is hyphen-free. -/
theorem correlationId_splitOn (now c : Nat) (r : Str) (hr : '-' ∉ r) :
    ((generateCorrelationId now c r).1).splitOn '-' =
      [S "err", toBase36 now, padStart (toBase36 (c + 1)) 4 '0', r] := by
  have hx : ∀ l ∈ [S "err", toBase36 now, padStart (toBase36 (c + 1)) 4 '0', r], '-' ∉ l := by
    intro l hl
    simp only [List.mem_cons, List.not_mem_nil, or_false] at hl
    rcases hl with hl | hl | hl | hl
    · subst hl; decide
    · subst hl; exact not_mem_toBase36 now
    · subst hl; exact not_mem_padStart (not_mem_toBase36 _) 4
    · subst hl; exact hr
  rw [correlationId_eq,
    List.splitOn_intercalate [S "err", toBase36 now, padStart (toBase36 (c + 1)) 4 '0', r]
      '-' hx (by simp)]

/-- Two correlation ids built from hyphen-free random fragments agree only
when their counters agree. -/
theorem generateCorrelationId_inj (now₁ now₂ c₁ c₂ : Nat) (r₁ r₂ : Str)
    (h₁ : '-' ∉ r₁) (h₂ : '-' ∉ r₂)
    (h : (generateCorrelationId now₁ c₁ r₁).1 = (generateCorrelationId now₂ c₂ r₂).1) :
    c₁ = c₂ := by
  have hs : [S "err", toBase36 now₁, padStart (toBase36 (c₁ + 1)) 4 '0', r₁] =
      [S "err", toBase36 now₂, padStart (toBase36 (c₂ + 1)) 4 '0', r₂] := by
    rw [← correlationId_splitOn now₁ c₁ r₁ h₁, ← correlationId_splitOn now₂ c₂ r₂ h₂, h]
  simp only [List.cons.injEq, and_true] at hs
  have hcnt : padStart (toBase36 (c₁ + 1)) 4 '0' = padStart (toBase36 (c₂ + 1)) 4 '0' :=
    hs.2.2.1
  have hv := congrArg val36 hcnt
  rw [val36_padStart, val36_padStart, val36_toBase36, val36_toBase36] at hv
  omega

/-- The state and id list of a sequential run: the counter advances by one
per call and call `i` produces the id generated from counter value
`initial + i`. -/
theorem sanitizeRun_spec (z : ErrorSanitizer) (errs : Nat → JsError)
    (ctxs : Nat → Option Context) (nows : Nat → Nat) (rands : Nat → Str) :
    ∀ n, (sanitizeRun z errs ctxs nows rands n).1.correlationCounter =
        z.correlationCounter + n ∧
      (sanitizeRun z errs ctxs nows rands n).2 =
        (List.range n).map
          (fun i => (generateCorrelationId (nows i) (z.correlationCounter + i) (rands i)).1) := by
  intro n
  induction n with
  | zero => exact ⟨rfl, by simp [sanitizeRun]⟩
  | succ n ih =>
    constructor
    · show ((sanitizeRun z errs ctxs nows rands n).1.sanitize (errs n) (ctxs n) (nows n)
          (rands n)).2.correlationCounter = z.correlationCounter + (n + 1)
      rw [sanitize_counter_succ, ih.1]
      omega
    · show (sanitizeRun z errs ctxs nows rands n).2 ++
          [((sanitizeRun z errs ctxs nows rands n).1.sanitize (errs n) (ctxs n) (nows n)
            (rands n)).1.internal.correlationId] = _
      rw [sanitize_internal_id, ih.1, ih.2, List.range_succ, List.map_append, List.map_singleton]

/-- A filter strictly shrinks a list exactly when some element fails the
predicate. -/
theorem length_filter_lt_iff {α : Type} (l : List α) (q : α → Bool) :
    (l.filter q).length < l.length ↔ ∃ a ∈ l, ¬q a = true := by
  induction l with
  | nil => simp
  | cons a l ih =>
    by_cases hq : q a = true
    · simp only [List.filter_cons, hq, if_pos, List.length_cons]
      rw [Nat.add_lt_add_iff_right, ih]
      simp [hq]
    · simp only [List.filter_cons, hq, if_neg, List.length_cons]
      constructor
      · intro _
        exact ⟨a, List.mem_cons_self _ _, hq⟩
      · intro _
        exact Nat.lt_succ_of_le (List.length_filter_le q l)

/-! ## Claims -/

/-- C1: in production mode (sanitization enabled, environment production,
message limit at least the longest generic string, as in the default
configuration), the external message of every sanitized error is the
classifier result — exact type-name lookup, else first matching keyword
group, else the default, as implemented by `getGenericMessage` — and that
result is always one of the fixed generic strings, independent of the
original message. -/
theorem sanitize_production_generic (z : ErrorSanitizer) (e : JsError) (ctx : Option Context)
    (now : Nat) (rand : Str) (h1 : z.config.enabled = true)
    (h2 : z.config.environment = Environment.production)
    (h3 : 55 ≤ z.config.maxMessageLength) :
    (z.sanitize e ctx now rand).1.external.message = getGenericMessage e ∧
    getGenericMessage e ∈ fixedGenericMessages := by
  have hmem := getGenericMessage_mem e
  have hlen : (getGenericMessage e).length ≤ 55 := genericMessages_le55 _ hmem
  refine ⟨?_, hmem⟩
  have hcond : ¬(z.config.enabled = false ∨ z.config.environment = Environment.development) := by
    rw [h1, h2]; simp
  have hpre : preTruncationMessage z e = getGenericMessage e := by
    unfold preTruncationMessage
    rw [if_neg hcond]
  rw [sanitize_message_shape, hpre]
  unfold truncateMessage
  rw [if_neg (by omega)]

/-- C1 witness: the timeout scenario — an error with message
`Request timed out after 5000ms` in production yields exactly the fixed
timeout string. -/
theorem sanitize_production_generic_witness :
    (prodSanitizer.sanitize errTimeout none 0 (S "ab")).1.external.message =
      S "The operation timed out. Please try again." := by
  have h := (sanitize_production_generic prodSanitizer errTimeout none 0 (S "ab") rfl rfl
    (by decide)).1
  rw [h]
  decide

/-- C2 counterexample: with sanitization enabled and environment `test`,
the external message is the generic message, not the redacted original
(the code branches on `environment === 'development'` only). -/
theorem sanitize_test_env_counterexample :
    (testModeSanitizer.sanitize errHello none 0 (S "ab")).1.external.message ≠
      testModeSanitizer.secretGuard.redact errHello.message := by decide

/-- C2 amended: the pass-through branch (secret redaction of the raw
message, then truncation) is taken exactly when sanitization is disabled
or the environment is `development`; whenever it is enabled and the
environment is not `development` — production or test — the generic
message is substituted. -/
theorem sanitize_external_message_branches (z : ErrorSanitizer) (e : JsError)
    (ctx : Option Context) (now : Nat) (rand : Str) :
    ((z.config.enabled = false ∨ z.config.environment = Environment.development) →
      (z.sanitize e ctx now rand).1.external.message =
        truncateMessage z.config.maxMessageLength (z.secretGuard.redact e.message)) ∧
    (z.config.enabled = true ∧ z.config.environment ≠ Environment.development →
      (z.sanitize e ctx now rand).1.external.message =
        truncateMessage z.config.maxMessageLength (getGenericMessage e)) := by
  constructor
  · intro h
    rw [sanitize_message_shape]
    unfold preTruncationMessage
    rw [if_pos h]
  · intro h
    rw [sanitize_message_shape]
    unfold preTruncationMessage
    rw [if_neg (by rw [h.1]; simp [h.2])]

/-- C2 witness: in development mode the external message is the truncated
secret-redaction of the raw message. -/
theorem sanitize_external_message_branches_witness :
    (devSanitizer.sanitize errHello none 0 (S "ab")).1.external.message =
      truncateMessage 500 (devSanitizer.secretGuard.redact errHello.message) :=
  (sanitize_external_message_branches devSanitizer errHello none 0 (S "ab")).1 (Or.inr rfl)

/-- C3: the pipeline is total on arbitrary inputs (the embedding functions
are total, mirroring the absence of any throw in the sources) and
non-Error inputs are coerced to a synthetic error before the same
pipeline runs: an `Error` goes through unchanged, a string becomes the
message of an error named `UnknownError`, and any other value becomes the
fixed message `An unknown error occurred` under the same name. -/
theorem sanitizeUnknownError_total (z : ErrorSanitizer) (ctx : Option Context)
    (now : Nat) (rand : Str) (fresh : Str) :
    (∀ e, sanitizeUnknownError z (JsUnknown.errObj e) ctx now rand fresh =
        z.createSafeError e ctx now rand fresh) ∧
    (∀ s, sanitizeUnknownError z (JsUnknown.strVal s) ctx now rand fresh =
        z.createSafeError ⟨S "UnknownError", s, some fresh⟩ ctx now rand fresh) ∧
    (sanitizeUnknownError z JsUnknown.otherVal ctx now rand fresh =
        z.createSafeError ⟨S "UnknownError", S "An unknown error occurred", some fresh⟩
          ctx now rand fresh) ∧
    (∀ s, (sanitizeUnknownError z (JsUnknown.strVal s) ctx now rand fresh).1.name =
        S "UnknownError") ∧
    ((sanitizeUnknownError z JsUnknown.otherVal ctx now rand fresh).1.name =
        S "UnknownError") :=
  ⟨fun _ => rfl, fun _ => rfl, rfl, fun _ => rfl, rfl⟩

/-- C4 counterexample: a pre-truncation message that itself ends in the
three-dot marker is returned unchanged — the result ends with `...`
although no truncation occurred, so the `iff` of the claim fails. -/
theorem sanitize_truncation_marker_counterexample :
    S "..." <:+ (devSanitizer.sanitize errDots none 0 (S "ab")).1.external.message ∧
    ¬(devSanitizer.config.maxMessageLength <
        (preTruncationMessage devSanitizer errDots).length) := by
  constructor
  · have hm : (devSanitizer.sanitize errDots none 0 (S "ab")).1.external.message = S "..." := by
      decide
    rw [hm]
  · decide

/-- C4 amended: for every positive message limit, the external message is
at most `maxMessageLength + 3` characters long, and whenever truncation
occurred (the pre-truncation message was longer than the limit), the
result ends with `...`.  The converse of the latter does not hold (see
the counterexample). -/
theorem sanitize_truncation_bound (z : ErrorSanitizer) (e : JsError) (ctx : Option Context)
    (now : Nat) (rand : Str) (h : 0 < z.config.maxMessageLength) :
    (z.sanitize e ctx now rand).1.external.message.length ≤ z.config.maxMessageLength + 3 ∧
    (z.config.maxMessageLength < (preTruncationMessage z e).length →
      S "..." <:+ (z.sanitize e ctx now rand).1.external.message) := by
  rw [sanitize_message_shape]
  unfold truncateMessage
  by_cases hc : z.config.maxMessageLength < (preTruncationMessage z e).length
  · rw [if_pos hc]
    constructor
    · rw [List.length_append, List.length_take, inf_eq_left.mpr (Nat.le_of_lt hc)]
      have h3 : (S "...").length = 3 := rfl
      omega
    · intro _
      exact List.suffix_append _ _
  · rw [if_neg hc]
    constructor
    · omega
    · intro hcon
      exact absurd hcon hc

/-- C4 witness: the scenario of a 100-character message under a limit of
50 in development mode — the result has at most 53 characters and ends
with the marker. -/
theorem sanitize_truncation_bound_witness :
    (devSanitizer50.sanitize errLong none 0 (S "ab")).1.external.message.length ≤ 53 ∧
    S "..." <:+ (devSanitizer50.sanitize errLong none 0 (S "ab")).1.external.message :=
  ⟨(sanitize_truncation_bound devSanitizer50 errLong none 0 (S "ab") (by decide)).1,
   (sanitize_truncation_bound devSanitizer50 errLong none 0 (S "ab") (by decide)).2 (by decide)⟩

/-- C5 counterexample: with partial preservation and preserve length zero,
a match of length greater than zero is replaced by the marker, the dots
and the whole match (JavaScript `slice(-0)` returns the entire string),
not by marker and dots alone as the claim states for `N = 0`. -/
theorem createRedaction_preserveZero_counterexample :
    guardPartial0.createRedaction (S "ab") = S "[REDACTED]...ab" ∧
    guardPartial0.createRedaction (S "ab") ≠ S "[REDACTED]..." := by decide

/-- C5 amended: with partial preservation enabled and preserve length
`N ≥ 1`, the replacement for a match longer than `N` is exactly the
marker, the literal dots and the last `N` characters of the match, and
the marker alone for matches of length at most `N`; moreover `redact`
splices exactly `createRedaction` of the matched text in place of a
located match. -/
theorem createRedaction_preserve_exact (g : SecretGuard) (m : Str)
    (h1 : g.config.preservePartial = true) (h2 : 1 ≤ g.config.preserveLength) :
    (g.createRedaction m =
      if g.config.preserveLength < m.length then
        g.config.redactionText ++ S "..." ++ m.drop (m.length - g.config.preserveLength)
      else g.config.redactionText) ∧
    (∀ (p : SecretPattern) (s pre mt rest : Str),
      g.config.enabled = true → g.patterns = [p] → p.find s = some (pre, mt, rest) →
      s ≠ [] →
      ∃ tail, g.redact s = pre ++ g.createRedaction mt ++ tail) := by
  constructor
  · unfold SecretGuard.createRedaction sliceNeg
    by_cases hc : g.config.preserveLength < m.length
    · rw [if_pos ⟨h1, hc⟩, if_pos hc, if_neg (by omega)]
    · rw [if_neg (fun hand => hc hand.2), if_neg hc]
  · intro p s pre mt rest he hp hfind hs
    unfold SecretGuard.redact
    rw [if_neg (by simp [he, hs])]
    rw [hp]
    show ∃ tail,
      jsReplaceAll p.find (fun m => g.createRedaction m) s = pre ++ g.createRedaction mt ++ tail
    refine ⟨jsReplaceAllAux p.find (fun m => g.createRedaction m) s.length rest, ?_⟩
    simp only [jsReplaceAll, jsReplaceAllAux, hfind]

/-- C5 witness: preserve length four on an eight-character match keeps
exactly the last four characters after marker and dots. -/
theorem createRedaction_preserve_exact_witness :
    guardPartial4.createRedaction (S "abcdefgh") = S "[REDACTED]...efgh" := by
  have h := (createRedaction_preserve_exact guardPartial4 (S "abcdefgh") rfl (by decide)).1
  rw [h]
  decide

/-- C6: a disabled secret redactor is the identity — `redact` returns its
input unchanged and `containsSecrets` reports false, for every input. -/
theorem disabled_identity (g : SecretGuard) (x : Str) (h : g.config.enabled = false) :
    g.redact x = x ∧ g.containsSecrets x = false := by
  unfold SecretGuard.redact SecretGuard.containsSecrets
  rw [if_pos (Or.inl h), if_pos (Or.inl h)]
  exact ⟨rfl, rfl⟩

/-- C6 witness: the disabled guard leaves a password-shaped string
untouched and detects nothing in it. -/
theorem disabled_identity_witness :
    disabledGuard.redact (S "password=hunter2") = S "password=hunter2" ∧
    disabledGuard.containsSecrets (S "password=hunter2") = false :=
  disabled_identity disabledGuard (S "password=hunter2") rfl

/-- C7 counterexample: with two patterns sharing the name `dup`, one
`removePattern` call removes both — the registry is left empty, not with
the second pattern still present as the claim states. -/
theorem removePattern_removes_both_counterexample :
    (guardDupNames.removePattern (S "dup")).2 = true ∧
    (guardDupNames.removePattern (S "dup")).1.patterns.length = 0 ∧
    (guardDupNames.removePattern (S "dup")).1.patterns.length ≠ 1 := by decide

/-- C7 amended: `removePattern` removes every pattern whose name equals
the given name (a filter), and returns true exactly when at least one
pattern carried that name. -/
theorem removePattern_filters_all (g : SecretGuard) (name : Str) :
    (g.removePattern name).1.patterns = g.patterns.filter (fun p => p.name ≠ name) ∧
    ((g.removePattern name).2 = true ↔ ∃ p ∈ g.patterns, p.name = name) := by
  constructor
  · rfl
  · show decide ((g.patterns.filter (fun p => p.name ≠ name)).length < g.patterns.length)
        = true ↔ _
    rw [decide_eq_true_eq, length_filter_lt_iff]
    constructor
    · rintro ⟨p, hp, hn⟩
      refine ⟨p, hp, ?_⟩
      simpa using hn
    · rintro ⟨p, hp, hn⟩
      exact ⟨p, hp, by simp [hn]⟩

/-- C7 witness: removing the duplicated name reports success. -/
theorem removePattern_filters_all_witness :
    (guardDupNames.removePattern (S "dup")).2 = true :=
  (removePattern_filters_all guardDupNames (S "dup")).2.mpr
    ⟨inertPattern (S "dup"), List.mem_cons_self _ _, rfl⟩

/-- C8: path redaction applies its three phases in order — configured base
paths as escaped literals, then custom patterns, then the system pattern
table — each phase fully applied to the previous result; and the default
configuration (no matching base path) rewrites `/home/johndoe/file.txt`
to `/home/[USER]/file.txt`. -/
theorem pathRedact_phase_order :
    (∀ (p : PathSanitizer) (input : Str), p.config.enabled = true → input ≠ [] →
      p.redact input =
        applySystemPatterns p (applyCustomPatterns p (applyBasePaths p input))) ∧
    pathDefault.redact (S "/home/johndoe/file.txt") = S "/home/[USER]/file.txt" := by
  constructor
  · intro p input h1 h2
    unfold PathSanitizer.redact
    rw [if_neg (by simp [h1, h2])]
    rfl
  · decide

/-- C8 witness: the phase decomposition at a concrete sanitizer and
input. -/
theorem pathRedact_phase_order_witness :
    pathDefault.redact (S "/etc/x") =
      applySystemPatterns pathDefault
        (applyCustomPatterns pathDefault (applyBasePaths pathDefault (S "/etc/x"))) :=
  pathRedact_phase_order.1 pathDefault (S "/etc/x") rfl (by decide)

/-- C9: one hundred sequential sanitize calls on a single instance yield
one hundred pairwise-distinct correlation ids: the per-instance counter
strictly increments, its zero-padded base-36 segment determines the
counter value, and the hyphen-separated id layout makes ids with
different counter segments distinct regardless of the timestamp and
random segments (which, coming from `toString(36)`, never contain a
hyphen). -/
theorem correlationIds_distinct (z : ErrorSanitizer) (errs : Nat → JsError)
    (ctxs : Nat → Option Context) (nows : Nat → Nat) (rands : Nat → Str)
    (hr : ∀ i, '-' ∉ rands i) :
    (sanitizeRun z errs ctxs nows rands 100).2.length = 100 ∧
    (sanitizeRun z errs ctxs nows rands 100).2.Pairwise (· ≠ ·) := by
  have hspec := (sanitizeRun_spec z errs ctxs nows rands 100).2
  rw [hspec]
  constructor
  · rw [List.length_map, List.length_range]
  · rw [List.pairwise_map]
    refine List.Pairwise.imp ?_ (List.pairwise_lt_range 100)
    intro i j hij heq
    have hc := generateCorrelationId_inj (nows i) (nows j) (z.correlationCounter + i)
      (z.correlationCounter + j) (rands i) (rands j) (hr i) (hr j) heq
    omega

/-- C9 witness: a concrete run of one hundred calls with fixed clock and
random fragment. -/
theorem correlationIds_distinct_witness :
    (sanitizeRun prodSanitizer (fun _ => errHello) (fun _ => none) (fun _ => 7)
      (fun _ => S "ab") 100).2.length = 100 ∧
    (sanitizeRun prodSanitizer (fun _ => errHello) (fun _ => none) (fun _ => 7)
      (fun _ => S "ab") 100).2.Pairwise (· ≠ ·) :=
  correlationIds_distinct prodSanitizer (fun _ => errHello) (fun _ => none) (fun _ => 7)
    (fun _ => S "ab") (fun _ => show '-' ∉ S "ab" by decide)

/-- C10: for every configuration, including production with sanitization
enabled, the external record's type is the original error's name
verbatim, and `createSafeError` carries that same name — the type name is
never redacted, classified or replaced. -/
theorem type_name_crosses_boundary (z : ErrorSanitizer) (e : JsError) (ctx : Option Context)
    (now : Nat) (rand : Str) (fresh : Str) :
    (z.sanitize e ctx now rand).1.external.type = e.name ∧
    (z.createSafeError e ctx now rand fresh).1.name = e.name :=
  ⟨rfl, rfl⟩

end Spotclean
